import Mathlib

/-!
Shallow embedding of the core of the unity-cursor-toolkit repository:

* the engine-side listener (`unity-assets/HotReloadHandler.cs`): message
  processing, the per-tick editor-update drain, the port search performed by
  the listener thread, and the `Start` / `Stop` / `Reload` lifecycle;
* the editor-side client connector (`src/modules/socketConnection.ts`):
  the ordered port probe of `connectToUnity` / `tryConnectToPort`,
  `closeConnection`, and the delayed-reconnect timer installed by the
  socket close handler.

C# strings become `List Char`; `string.Contains` becomes `containsSub`.
Mutable statics become fields of explicit state records threaded through the
translated functions.  External effects that the code only observes
(mutex-acquisition outcome, whether a port is in use, whether a bind or a
connect succeeds) become explicit environment parameters.  Counts of calls to
external collaborators (the Refresh Executor) are returned as numbers.
-/

/- ========================================================================
   Part 1 — strings and message classification
   (HotReloadHandler.cs, ProcessMessage lines 807-853)
   ======================================================================== -/

/-- `isPrefixOfChars sub l` is true when `sub` occurs at the head of `l`. -/
def isPrefixOfChars : List Char → List Char → Bool
  | [], _ => true
  | _ :: _, [] => false
  | a :: as, b :: bs => a == b && isPrefixOfChars as bs

/-- `containsSub s sub` mirrors C# `s.Contains(sub)`: `sub` occurs somewhere
inside `s` as a contiguous substring. -/
def containsSub : List Char → List Char → Bool
  | [], sub => sub.isEmpty
  | c :: rest, sub => isPrefixOfChars sub (c :: rest) || containsSub rest sub

/-- The opening-brace character tested by `message.Contains("{")`. -/
def lbraceChar : Char := '\x7b'

/-- The closing-brace character tested by `message.Contains("}")`. -/
def rbraceChar : Char := '\x7d'

/-- The substring `"command"` (with surrounding quotes) tested by
`message.Contains("\"command\"")`. -/
def quotedCommand : List Char := "\"command\"".toList

/-- The substring `"refresh"` (with surrounding quotes). -/
def quotedRefresh : List Char := "\"refresh\"".toList

/-- The substring `"ping"` (with surrounding quotes). -/
def quotedPing : List Char := "\"ping\"".toList

/-- HotReloadHandler.ProcessMessage (lines 807-853), as a transformer of the
`shouldRequestRefresh` flag.  The C# sets the static flag in some branches and
leaves it untouched in others; the translation returns the new flag value.
The outer `try`/`catch` sets the flag on any exception; none of the string
operations below can throw, so the function is total with the same branches.
-/
def ProcessMessage (message : List Char) (shouldRequestRefresh : Bool) : Bool :=
  if containsSub message [lbraceChar] && containsSub message [rbraceChar] then
    if containsSub message quotedCommand then
      if containsSub message quotedRefresh then
        true
      else if containsSub message quotedPing then
        -- "Could implement ping/pong in future": log only, flag untouched
        shouldRequestRefresh
      else
        -- recognized "command" key but unrecognized command: falls through
        -- both inner branches, flag untouched
        shouldRequestRefresh
    else
      -- JSON-looking payload without a "command" key: default - refresh
      true
  else
    -- Simple message - trigger refresh
    true

/-- A message "sets the refresh-pending flag": processing it turns the flag
on even when the flag was previously off. -/
def setsRefresh (message : List Char) : Bool :=
  ProcessMessage message false

/-- The drain loop of OnEditorUpdate (lines 493-500): dequeue every queued
message in arrival order and run `ProcessMessage` on each, threading the
`shouldRequestRefresh` flag. -/
def drainQueue : List (List Char) → Bool → Bool
  | [], flag => flag
  | m :: rest, flag => drainQueue rest (ProcessMessage m flag)

/-- The raw payload `hello` — not JSON, no braces. -/
def helloMsg : List Char := "hello".toList

/-- The structured payload sent by the extension:
`\x7b"command":"refresh"\x7d`. -/
def jsonRefreshMsg : List Char := "\x7b\"command\":\"refresh\"\x7d".toList

/-- A structured payload with the recognized `ping` command. -/
def jsonPingMsg : List Char := "\x7b\"command\":\"ping\"\x7d".toList

/-- A structured payload whose `command` field names an unrecognized
command: `\x7b"command":"foo"\x7d`. -/
def jsonFooMsg : List Char := "\x7b\"command\":\"foo\"\x7d".toList

/- ========================================================================
   Part 2 — client connector (src/modules/socketConnection.ts)
   ======================================================================== -/

/-- Module-level client state of socketConnection.ts: `currentPort`
(line 14), `isConnecting` (line 16), and whether `socketClient` currently
holds a live (non-destroyed) socket (line 15). -/
structure ClientState where
  currentPort : Nat
  isConnecting : Bool
  socketLive : Bool
deriving DecidableEq, Repr

/-- `DEFAULT_UNITY_HOT_RELOAD_PORT` (socketConnection.ts line 11). -/
def DEFAULT_UNITY_HOT_RELOAD_PORT : Nat := 55500

/-- `ALTERNATIVE_PORTS` (socketConnection.ts line 13). -/
def ALTERNATIVE_PORTS : List Nat := [55500, 55501, 55502, 55503, 55504]

/-- Outcome of a connect sequence: the final client state, the value the
promise resolves with (`some port` or `none`), the ports attempted in order,
and whether the user-visible error message was shown. -/
structure ConnectOutcome where
  state : ClientState
  resolved : Option Nat
  attempted : List Nat
  errorShown : Bool
deriving DecidableEq, Repr

/-- tryConnectToPort (socketConnection.ts lines 46-112), recursing over the
suffix of `ALTERNATIVE_PORTS` that starts at `portIndex`.  `connectEnv p` is
true when a TCP connect to port `p` succeeds (false covers both the error and
the 2000 ms timeout paths, which behave identically via `connectionFailed`).
On exhaustion (line 47-55): error message iff `isInitialAttempt`,
`isConnecting := false`, resolve `null`.  On success (lines 100-111):
`currentPort := port`, `isConnecting := false`, resolve `port`, keep the
socket. -/
def tryConnectToPort (connectEnv : Nat → Bool) (isInitialAttempt : Bool) :
    List Nat → ClientState → ConnectOutcome
  | [], s =>
      { state := { s with isConnecting := false, socketLive := false }
        resolved := none
        attempted := []
        errorShown := isInitialAttempt }
  | port :: rest, s =>
      if connectEnv port then
        { state := { s with currentPort := port, isConnecting := false,
                            socketLive := true }
          resolved := some port
          attempted := [port]
          errorShown := false }
      else
        -- connectionFailed: destroy the socket, try the next port
        let r := tryConnectToPort connectEnv isInitialAttempt rest
                   { s with socketLive := false }
        { r with attempted := port :: r.attempted }

/-- connectToUnity (socketConnection.ts lines 23-41).  A second auto attempt
while one is in flight is skipped (lines 24-27); an explicit attempt
(`isInitialAttempt = true`) always proceeds, destroying any existing socket
(lines 31-38) and probing ports from index 0 (line 39). -/
def connectToUnity (connectEnv : Nat → Bool) (isInitialAttempt : Bool)
    (s : ClientState) : ConnectOutcome :=
  if s.isConnecting && !isInitialAttempt then
    { state := s, resolved := none, attempted := [], errorShown := false }
  else
    tryConnectToPort connectEnv isInitialAttempt ALTERNATIVE_PORTS
      { s with isConnecting := true, socketLive := false }

/-- closeConnection (socketConnection.ts lines 163-170).  Returns the new
state and whether `socketClient.destroy()` (abortive close) was invoked.
`currentPort` is not assigned anywhere in the function. -/
def closeConnection (s : ClientState) : ClientState × Bool :=
  ({ s with isConnecting := false, socketLive := false }, s.socketLive)

/-- The fixed reconnect delay of the close handler: `setTimeout(..., 5000)`
(socketConnection.ts line 90). -/
def RECONNECT_DELAY_MS : Nat := 5000

/-- What the close-handler's scheduled timer does when it fires
(socketConnection.ts lines 79-90): read the *current* value of the
caller-supplied predicate (`isSocketNeeded()`) and the *current* socket
(`!socketClient || socketClient.destroyed`); start a background reconnect
only if the predicate holds and no live socket exists.  Returns the connect
outcome (when a reconnect was started) and whether one was started. -/
def closeTimerFire (isSocketNeededAtFire : Bool) (connectEnv : Nat → Bool)
    (fireState : ClientState) : Option ConnectOutcome × Bool :=
  if isSocketNeededAtFire && !fireState.socketLive then
    (some (connectToUnity connectEnv false fireState), true)
  else
    (none, false)

/-- The close handler itself (socketConnection.ts lines 74-91): clear
`isConnecting` and schedule `closeTimerFire` after `RECONNECT_DELAY_MS`.
The scheduled closure captures nothing about the scheduling-time value of the
predicate — `scheduleNeeded` (its value when the timer was installed) does not
occur in the returned callback, which is exactly `closeTimerFire` applied to
fire-time data. -/
def onSocketClose (_scheduleNeeded : Bool) (s : ClientState) :
    ClientState × Nat × (Bool → (Nat → Bool) → ClientState → Option ConnectOutcome × Bool) :=
  ({ s with isConnecting := false }, RECONNECT_DELAY_MS, closeTimerFire)

/- ========================================================================
   Part 3 — engine-side listener (unity-assets/HotReloadHandler.cs)
   ======================================================================== -/

/-- The static fields of HotReloadHandler (lines 41-71) that the claims are
about, together with the two EditorPrefs slots the class reads and writes.
`pendingPersist` models the `mainThreadActions` queue: the only action ever
enqueued is `() => EditorPrefs.SetInt(lastPortPrefKey, lastSuccessfulPort)`
(lines 586-589, 967-970), a closure over the static field, so a Bool
"at least one such action is queued" suffices — draining writes the value of
`lastSuccessfulPort` at drain time.  The socket, thread and client-list
handles are not modeled; their lifecycle shows up only through
`isServerRunning` and the bind environments. -/
structure ListenerState where
  shouldRequestRefresh : Bool
  currentPort : Int
  lastSuccessfulPort : Int
  messageQueue : List (List Char)
  isInitialized : Bool
  isServerRunning : Bool
  mutexHeld : Bool
  wasRunningPref : Bool
  lastPortPref : Int
  pendingPersist : Bool
deriving DecidableEq, Repr

/-- `DEFAULT_PORT` (HotReloadHandler.cs line 53). -/
def DEFAULT_PORT : Int := 55500

/-- `ALTERNATIVE_PORTS` of the listener (HotReloadHandler.cs line 54). -/
def LISTENER_ALTERNATIVE_PORTS : List Int := [55500, 55501, 55502, 55503, 55504]

/-- `PORT_RETRY_ATTEMPTS` (HotReloadHandler.cs line 57). -/
def PORT_RETRY_ATTEMPTS : Nat := 5

/-- State of the static fields right after the static constructor runs
(lines 77-103): `currentPort` and `lastSuccessfulPort` are both loaded from
the persisted last-port preference (lines 81-82), the server is not running,
no mutex is held, and the in-memory queues are empty. -/
def initListenerState (persistedPort : Int) (persistedWasRunning : Bool) : ListenerState :=
  { shouldRequestRefresh := false
    currentPort := persistedPort
    lastSuccessfulPort := persistedPort
    messageQueue := []
    isInitialized := false
    isServerRunning := false
    mutexHeld := false
    wasRunningPref := persistedWasRunning
    lastPortPref := persistedPort
    pendingPersist := false }

/-- The `portsToTry` list built at the top of ListenerThreadFunction
(lines 527-548): current port first (if positive), then the last successful
port (if positive and not already present), then the alternative ports that
are not already present. -/
def portsToTry (currentPort lastSuccessfulPort : Int) : List Int :=
  let l1 : List Int := if 0 < currentPort then [currentPort] else []
  let l2 : List Int :=
    if 0 < lastSuccessfulPort ∧ lastSuccessfulPort ∉ l1 then
      l1 ++ [lastSuccessfulPort]
    else l1
  LISTENER_ALTERNATIVE_PORTS.foldl
    (fun acc p => if p ∈ acc then acc else acc ++ [p]) l2

/-- The inner retry loop for one candidate port (lines 557-616).
`bindEnv p i` is true when creating and starting a `TcpListener` on port `p`
succeeds on 0-based attempt `i` for that port; false is the
address-already-in-use `continue` path.  Returns whether a bind succeeded and
how many attempts were made. -/
def attemptBind (bindEnv : Int → Nat → Bool) (port : Int) :
    Nat → Nat → Bool × Nat
  | 0, used => (false, used)
  | n + 1, used =>
      if bindEnv port used then (true, used + 1)
      else attemptBind bindEnv port n (used + 1)

/-- The outer candidate loop of ListenerThreadFunction (lines 551-620):
preferred ports (equal to the current or the last successful port) get
`PORT_RETRY_ATTEMPTS` attempts, every other candidate gets exactly one
(line 555).  Returns the port bound (if any) and, for auditing the search,
the list of (port, attempts-made) pairs in search order up to and including
the successful candidate. -/
def bindSearch (bindEnv : Int → Nat → Bool) (currentPort lastSuccessfulPort : Int) :
    List Int → Option Int × List (Int × Nat)
  | [] => (none, [])
  | p :: rest =>
      let isPreferredPort := p = currentPort ∨ p = lastSuccessfulPort
      let maxAttempts := if isPreferredPort then PORT_RETRY_ATTEMPTS else 1
      let r := attemptBind bindEnv p maxAttempts 0
      if r.1 then (some p, [(p, r.2)])
      else
        let rec' := bindSearch bindEnv currentPort lastSuccessfulPort rest
        (rec'.1, (p, r.2) :: rec'.2)

/-- ListenerThreadFunction (lines 524-630) up to the accept loop: run the
candidate search; on the first successful bind record the bound port as both
current and last-successful, enqueue the main-thread persist of the
last-successful port (lines 583-590), and mark the server running (line 628).
If every candidate fails, log and return with the server not running
(lines 622-626). -/
def ListenerThreadFunction (bindEnv : Int → Nat → Bool) (s : ListenerState) : ListenerState :=
  match (bindSearch bindEnv s.currentPort s.lastSuccessfulPort
          (portsToTry s.currentPort s.lastSuccessfulPort)).1 with
  | some p =>
      { s with currentPort := p, lastSuccessfulPort := p,
               pendingPersist := true, isServerRunning := true }
  | none => { s with isServerRunning := false }

/-- StopServer (lines 377-446): clear the running flag, close all client
connections and the listening socket, join/abort the thread.  Only the
running flag is visible in this state model. -/
def StopServer (s : ListenerState) : ListenerState :=
  { s with isServerRunning := false }

/-- StartListenerThread (lines 359-371): stop any live server first, then
run the listener thread.  (The conditional `StopServer` only fires when a
thread is alive, in which case it clears `isServerRunning`; restating it
unconditionally is state-equivalent because `ListenerThreadFunction` is only
entered with the previous server stopped.) -/
def StartListenerThread (bindEnv : Int → Nat → Bool) (s : ListenerState) : ListenerState :=
  ListenerThreadFunction bindEnv (StopServer s)

/-- Result announced by Start (all via `Debug.Log`; none is an exception). -/
inductive StartResult where
  | alreadyRunning
  | started
  | startedReclaimingStaleMutex
  | skippedAnotherInstance
deriving DecidableEq, Repr

/-- Start (lines 110-187).  `mutexAcquired` is the outcome of the mutex
dance of lines 119-152: true when the named mutex was created new, taken
over within the 100 ms wait, recovered from abandonment, or skipped after a
mutex error; false when another process holds it.  `portInUse p` is the
probe `IsPortInUse p` (lines 210-244).  `bindEnv` feeds the listener thread
the Start call launches. -/
def Start (mutexAcquired : Bool) (portInUse : Int → Bool)
    (bindEnv : Int → Nat → Bool) (s : ListenerState) : ListenerState × StartResult :=
  if s.isInitialized = true ∧ s.isServerRunning = true then
    (s, .alreadyRunning)
  else if mutexAcquired = false then
    if portInUse s.currentPort = false then
      -- lines 156-168: mutex held but port free — release the stale handle
      -- and proceed with startup
      let s1 := StartListenerThread bindEnv { s with mutexHeld := false }
      ({ s1 with isInitialized := true, wasRunningPref := true },
       .startedReclaimingStaleMutex)
    else
      -- lines 169-175: another live instance — close the handle and return
      ({ s with mutexHeld := false }, .skippedAnotherInstance)
  else
    let s1 := StartListenerThread bindEnv { s with mutexHeld := true }
    ({ s1 with isInitialized := true, wasRunningPref := true }, .started)

/-- StartWithoutMutex (lines 192-205): the post-domain-reload restart path;
same as Start minus the mutex dance and minus the was-running persist. -/
def StartWithoutMutex (bindEnv : Int → Nat → Bool) (s : ListenerState) : ListenerState :=
  if s.isInitialized = true ∧ s.isServerRunning = true then s
  else
    let s1 := StartListenerThread bindEnv s
    { s1 with isInitialized := true }

/-- The `delayCall` auto-start registered by the static constructor
(lines 95-102): if not initialized and the was-running preference is set,
clear the preference and run StartWithoutMutex. -/
def autoRestartAfterReload (bindEnv : Int → Nat → Bool) (s : ListenerState) : ListenerState :=
  if s.isInitialized = false ∧ s.wasRunningPref = true then
    StartWithoutMutex bindEnv { s with wasRunningPref := false }
  else s

/-- Stop (lines 250-278).  Returns the new state and whether the call was the
not-initialized no-op branch (line 252-256).  Neither branch throws. -/
def Stop (s : ListenerState) : ListenerState × Bool :=
  if s.isInitialized = false then (s, true)
  else
    let s1 := StopServer s
    ({ s1 with mutexHeld := false, isInitialized := false, wasRunningPref := false },
     false)

/-- TryStartOnSpecificPort / ListenerThreadFunctionSpecificPort
(lines 919-983): bind exactly one given port.  `specificBindEnv i` is
whether the bind succeeds on reload-retry iteration `i`; a negative port
makes the `TcpListener` constructor throw, which the catch turns into
`isServerRunning = false` (lines 975-982).  On success the port is recorded
as current and last-successful and the persist action is enqueued
(lines 962-971). -/
def TryStartOnSpecificPort (specificBindEnv : Nat → Bool) (attempt : Nat)
    (port : Int) (s : ListenerState) : ListenerState × Bool :=
  if 0 ≤ port ∧ specificBindEnv attempt = true then
    ({ s with currentPort := port, lastSuccessfulPort := port,
              pendingPersist := true, isServerRunning := true }, true)
  else
    ({ s with isServerRunning := false }, false)

/-- The retry loop of Reload (lines 303-323), counting down from
`PORT_RETRY_ATTEMPTS`: each iteration forces `currentPort` back to the port
being reused and tries to start on exactly that port; after the loop the
fallback is a normal listener start (lines 326-330), with `currentPort`
still forced to the reused port by the last iteration. -/
def reloadRetry (specificBindEnv : Nat → Bool) (bindEnv : Int → Nat → Bool)
    (portToReuse : Int) : Nat → ListenerState → ListenerState
  | 0, s => StartListenerThread bindEnv { s with currentPort := portToReuse }
  | n + 1, s =>
      let s1 := { s with currentPort := portToReuse }
      let r := TryStartOnSpecificPort specificBindEnv (PORT_RETRY_ATTEMPTS - (n + 1))
                 portToReuse s1
      if r.2 then r.1 else reloadRetry specificBindEnv bindEnv portToReuse n r.1

/-- Reload (lines 285-331): when not initialized, fall through to Start
(lines 287-292); otherwise remember the current port, stop the server
without releasing the mutex, and retry that exact port before falling back
to the normal port search. -/
def Reload (mutexAcquired : Bool) (portInUse : Int → Bool)
    (specificBindEnv : Nat → Bool) (bindEnv : Int → Nat → Bool)
    (s : ListenerState) : ListenerState :=
  if s.isInitialized = false then
    (Start mutexAcquired portInUse bindEnv s).1
  else
    let portToReuse := s.currentPort
    let s1 := StopServer s
    reloadRetry specificBindEnv bindEnv portToReuse PORT_RETRY_ATTEMPTS s1

/-- OnBeforeAssemblyReload (lines 452-473): persist the was-running flag if
the server is live, release the mutex, stop the server. -/
def OnBeforeAssemblyReload (s : ListenerState) : ListenerState :=
  let s1 :=
    if s.isInitialized = true ∧ s.isServerRunning = true then
      { s with wasRunningPref := true }
    else s
  StopServer { s1 with mutexHeld := false }

/-- OnEditorQuitting (lines 479-484): clear the was-running preference and
stop. -/
def OnEditorQuitting (s : ListenerState) : ListenerState :=
  (Stop { s with wasRunningPref := false }).1

/-- OnEditorUpdate (lines 490-518), one main-loop tick: drain the message
queue through ProcessMessage, drain the main-thread action queue (which
writes the current `lastSuccessfulPort` into the last-port preference), then,
if the refresh flag is set, clear it and invoke the Refresh Executor
(RefreshAssets, lines 859-882) exactly once.  The second component counts the
RefreshAssets invocations performed during the tick. -/
def OnEditorUpdate (s : ListenerState) : ListenerState × Nat :=
  let flag := drainQueue s.messageQueue s.shouldRequestRefresh
  let s1 := { s with
    messageQueue := []
    shouldRequestRefresh := flag
    lastPortPref := if s.pendingPersist then s.lastSuccessfulPort else s.lastPortPref
    pendingPersist := false }
  if s1.shouldRequestRefresh = true then
    ({ s1 with shouldRequestRefresh := false }, 1)
  else
    (s1, 0)

/-- HandleClient's enqueue of one received payload under the queue lock
(lines 755-759). -/
def enqueueMessage (m : List Char) (s : ListenerState) : ListenerState :=
  { s with messageQueue := s.messageQueue ++ [m] }

/-- The static constructor re-running after a domain reload (lines 77-103):
in-memory state is rebuilt from the persisted preferences; the queues and
handles of the previous domain are gone. -/
def domainReloadBoot (s : ListenerState) : ListenerState :=
  initListenerState s.lastPortPref s.wasRunningPref

/-- GetCurrentPort (lines 889-892). -/
def GetCurrentPort (s : ListenerState) : Int :=
  if s.isServerRunning = true then s.currentPort else -1

/-- IsServerRunning (lines 898-901). -/
def IsServerRunning (s : ListenerState) : Bool :=
  s.isServerRunning

/-- One observable step of the listener: any of the public operations, an
editor tick, a received payload, or a domain reload.  The environments
(mutex outcome, port probes, bind outcomes) are chosen per step. -/
inductive ListenerStep : ListenerState → ListenerState → Prop where
  | start (a : Bool) (pu : Int → Bool) (be : Int → Nat → Bool) (s : ListenerState) :
      ListenerStep s (Start a pu be s).1
  | startNoMutex (be : Int → Nat → Bool) (s : ListenerState) :
      ListenerStep s (StartWithoutMutex be s)
  | autoRestart (be : Int → Nat → Bool) (s : ListenerState) :
      ListenerStep s (autoRestartAfterReload be s)
  | stop (s : ListenerState) : ListenerStep s (Stop s).1
  | reload (a : Bool) (pu : Int → Bool) (sbe : Nat → Bool) (be : Int → Nat → Bool)
      (s : ListenerState) : ListenerStep s (Reload a pu sbe be s)
  | beforeAssemblyReload (s : ListenerState) : ListenerStep s (OnBeforeAssemblyReload s)
  | editorQuitting (s : ListenerState) : ListenerStep s (OnEditorQuitting s)
  | tick (s : ListenerState) : ListenerStep s (OnEditorUpdate s).1
  | recv (m : List Char) (s : ListenerState) : ListenerStep s (enqueueMessage m s)
  | boot (s : ListenerState) : ListenerStep s (domainReloadBoot s)

/-- States reachable from an editor-load boot with an arbitrary persisted
last port `p0` and was-running flag `w0`. -/
inductive ListenerReach (p0 : Int) (w0 : Bool) : ListenerState → Prop where
  | init : ListenerReach p0 w0 (initListenerState p0 w0)
  | step {s s' : ListenerState} :
      ListenerReach p0 w0 s → ListenerStep s s' → ListenerReach p0 w0 s'

/-- Port bookkeeping maintained by every listener operation: the current and
last-successful ports always agree (every assignment in the source writes
both), the current port is an alternative-list member or the persisted
last-port preference, and a running server has a non-negative bound port. -/
def ListenerInv (s : ListenerState) : Prop :=
  s.currentPort = s.lastSuccessfulPort ∧
  (s.currentPort ∈ LISTENER_ALTERNATIVE_PORTS ∨ s.currentPort = s.lastPortPref) ∧
  (s.isServerRunning = true → 0 ≤ s.currentPort)

/- ========================================================================
   Part 4 — theorems
   ======================================================================== -/

/-- Every branch of ProcessMessage either sets the flag or leaves it alone,
so a flag that is already set stays set. -/
theorem ProcessMessage_true (m : List Char) : ProcessMessage m true = true := by
  unfold ProcessMessage
  repeat' split
  all_goals rfl

/-- Flat characterization of ProcessMessage: the flag becomes true unless the
payload contains both braces and the `"command"` key, in which case it is set
exactly when the payload also contains `"refresh"`. -/
theorem ProcessMessage_eq (m : List Char) (f : Bool) :
    ProcessMessage m f =
      cond (containsSub m [lbraceChar] && containsSub m [rbraceChar]
              && containsSub m quotedCommand)
        (containsSub m quotedRefresh || f)
        true := by
  unfold ProcessMessage
  cases h1 : containsSub m [lbraceChar] <;>
    cases h2 : containsSub m [rbraceChar] <;>
      cases h3 : containsSub m quotedCommand <;>
        cases h4 : containsSub m quotedRefresh <;>
          cases h5 : containsSub m quotedPing <;>
            cases f <;> simp

/-- A drained queue keeps an already-set flag set. -/
theorem drainQueue_true (msgs : List (List Char)) : drainQueue msgs true = true := by
  induction msgs with
  | nil => rfl
  | cons m rest ih => simpa [drainQueue, ProcessMessage_true] using ih

/-- If some queued message sets the refresh flag, the whole drain ends with
the flag set, whatever the starting flag was. -/
theorem drainQueue_of_setter (msgs : List (List Char)) (f : Bool)
    (h : ∃ m ∈ msgs, setsRefresh m = true) :
    drainQueue msgs f = true := by
  induction msgs generalizing f with
  | nil => exact absurd h (by simp)
  | cons m rest ih =>
    rcases h with ⟨m', hm', hset⟩
    rcases List.mem_cons.mp hm' with rfl | hmem
    · have hpm : ProcessMessage m' f = true := by
        cases f
        · exact hset
        · exact ProcessMessage_true m'
      rw [drainQueue, hpm, drainQueue_true]
    · rw [drainQueue]
      exact ih (ProcessMessage m f) ⟨m', hmem, hset⟩

/-- Claim C1: in one OnEditorUpdate tick that drains any number of inbound
messages, if at least one of them sets the refresh-pending flag then
RefreshAssets is invoked exactly once (the invocation count of the tick is 1,
never the number of messages), and the refresh-pending flag is false after
the tick. -/
theorem onEditorUpdate_coalesces (s : ListenerState)
    (h : ∃ m ∈ s.messageQueue, setsRefresh m = true) :
    (OnEditorUpdate s).2 = 1 ∧
    (OnEditorUpdate s).1.shouldRequestRefresh = false ∧
    (OnEditorUpdate s).1.messageQueue = [] := by
  have hflag : drainQueue s.messageQueue s.shouldRequestRefresh = true :=
    drainQueue_of_setter _ _ h
  simp [OnEditorUpdate, hflag]

/-- Witness for C1: a tick that drains three messages (a ping, a raw
`hello`, and a structured refresh) invokes RefreshAssets exactly once and
clears the flag and the queue. -/
theorem onEditorUpdate_coalesces_witness :
    (∃ m ∈ ({ initListenerState 55500 false with
              messageQueue := [jsonPingMsg, helloMsg, jsonRefreshMsg] } :
                ListenerState).messageQueue, setsRefresh m = true) ∧
    ((OnEditorUpdate { initListenerState 55500 false with
        messageQueue := [jsonPingMsg, helloMsg, jsonRefreshMsg] }).2 = 1 ∧
      (OnEditorUpdate { initListenerState 55500 false with
        messageQueue := [jsonPingMsg, helloMsg, jsonRefreshMsg] }).1.shouldRequestRefresh = false ∧
      (OnEditorUpdate { initListenerState 55500 false with
        messageQueue := [jsonPingMsg, helloMsg, jsonRefreshMsg] }).1.messageQueue = []) :=
  ⟨by decide, onEditorUpdate_coalesces _ (by decide)⟩

/-- Claim C2: the raw payload `hello` (no braces, not JSON) sets the
refresh-pending flag and has exactly the same effect on the flag as the
structured payload `\x7b"command":"refresh"\x7d`, from either starting flag
value; and no payload is ever rejected — ProcessMessage is total and its only
effect is to either set the flag or leave it unchanged. -/
theorem processMessage_hello_equals_refresh :
    ∀ f : Bool,
      ProcessMessage helloMsg f = true ∧
      ProcessMessage jsonRefreshMsg f = true ∧
      ProcessMessage helloMsg f = ProcessMessage jsonRefreshMsg f ∧
      ∀ m : List Char, ProcessMessage m f = true ∨ ProcessMessage m f = f := by
  intro f
  refine ⟨?_, ?_, ?_, ?_⟩
  · cases f <;> decide
  · cases f <;> decide
  · cases f <;> decide
  · intro m
    rw [ProcessMessage_eq]
    cases hc : (containsSub m [lbraceChar] && containsSub m [rbraceChar]
        && containsSub m quotedCommand)
    · exact Or.inl rfl
    · cases hr : containsSub m quotedRefresh
      · exact Or.inr (by simp)
      · exact Or.inl (by simp)

/-- Counterexample to claim C3: the payload `\x7b"command":"foo"\x7d` is not
a recognized structured command (its command is neither `refresh` nor
`ping`), yet processing it from a clear flag leaves the refresh-pending flag
unset — the unrecognized-command branch of ProcessMessage falls through
without setting the flag, so it is not only `ping` that leaves the flag
unset. -/
theorem processMessage_foo_counterexample :
    setsRefresh jsonFooMsg = false ∧
    containsSub jsonFooMsg quotedCommand = true ∧
    containsSub jsonFooMsg quotedRefresh = false ∧
    containsSub jsonFooMsg quotedPing = false := by decide

/-- Claim C3 as amended: a payload lacking a brace or lacking the
`"command"` substring always sets the refresh-pending flag; a payload
containing braces and `"command"` sets the flag exactly when it contains
`"refresh"`, and otherwise — whether the command is the recognized `ping` or
an unrecognized one such as `foo` — leaves the flag unchanged. -/
theorem processMessage_classification (m : List Char) (f : Bool) :
    ProcessMessage m f =
      cond (containsSub m [lbraceChar] && containsSub m [rbraceChar]
              && containsSub m quotedCommand)
        (containsSub m quotedRefresh || f)
        true :=
  ProcessMessage_eq m f

/-- If every port in a prefix fails and the next port accepts, the probe
walks exactly that prefix in order, stops at the accepting port, records it,
and shows no error. -/
theorem tryConnectToPort_found (connectEnv : Nat → Bool) (b : Bool) :
    ∀ (l1 : List Nat) (p : Nat) (l2 : List Nat) (s : ClientState),
      (∀ q ∈ l1, connectEnv q = false) → connectEnv p = true →
      tryConnectToPort connectEnv b (l1 ++ p :: l2) s =
        { state := { currentPort := p, isConnecting := false, socketLive := true }
          resolved := some p
          attempted := l1 ++ [p]
          errorShown := false } := by
  intro l1
  induction l1 with
  | nil =>
    intro p l2 s _ hp
    simp [tryConnectToPort, hp]
  | cons q l1' ih =>
    intro p l2 s hdead hp
    have hq : connectEnv q = false := hdead q (by simp)
    have hrest : ∀ r ∈ l1', connectEnv r = false := fun r hr => hdead r (by simp [hr])
    simp [tryConnectToPort, hq, ih p l2 _ hrest hp]

/-- If every port in the list fails, the probe walks the whole list, resolves
with `none`, keeps the remembered port, and shows the error message exactly
when the attempt was explicit. -/
theorem tryConnectToPort_allFail (connectEnv : Nat → Bool) (b : Bool) :
    ∀ (l : List Nat) (s : ClientState),
      (∀ q ∈ l, connectEnv q = false) →
      tryConnectToPort connectEnv b l s =
        { state := { s with isConnecting := false, socketLive := false }
          resolved := none
          attempted := l
          errorShown := b } := by
  intro l
  induction l with
  | nil => intro s _; rfl
  | cons q l' ih =>
    intro s hdead
    have hq : connectEnv q = false := hdead q (by simp)
    have hrest : ∀ r ∈ l', connectEnv r = false := fun r hr => hdead r (by simp [hr])
    simp [tryConnectToPort, hq, ih _ hrest]

/-- Claim C4: when the first `k` candidate ports fail (timeout/error) and the
`(k+1)`-st accepts, an explicit `connectToUnity true` attempts the candidates
strictly in list order from index 0, resolves with the `(k+1)`-st port,
records it as the current port, attempts nothing after it, and shows no
error; and when all five candidates fail, the attempt resolves with `null`
and the user-visible error message is shown exactly when the attempt was
explicit. -/
theorem connectToUnity_port_order (connectEnv : Nat → Bool) (k : Nat)
    (s : ClientState)
    (hk : k < ALTERNATIVE_PORTS.length)
    (hlive : connectEnv (ALTERNATIVE_PORTS.getD k 0) = true)
    (hdead : ∀ q ∈ ALTERNATIVE_PORTS.take k, connectEnv q = false) :
    ((connectToUnity connectEnv true s).resolved = some (ALTERNATIVE_PORTS.getD k 0) ∧
     (connectToUnity connectEnv true s).attempted =
        ALTERNATIVE_PORTS.take k ++ [ALTERNATIVE_PORTS.getD k 0] ∧
     (connectToUnity connectEnv true s).state.currentPort = ALTERNATIVE_PORTS.getD k 0 ∧
     (connectToUnity connectEnv true s).state.isConnecting = false ∧
     (connectToUnity connectEnv true s).errorShown = false) ∧
    ∀ (env2 : Nat → Bool) (b : Bool) (s2 : ClientState),
      (∀ p ∈ ALTERNATIVE_PORTS, env2 p = false) → s2.isConnecting = false →
      (connectToUnity env2 b s2).resolved = none ∧
      (connectToUnity env2 b s2).errorShown = b := by
  constructor
  · have hsplit : ALTERNATIVE_PORTS =
        ALTERNATIVE_PORTS.take k ++ ALTERNATIVE_PORTS.getD k 0 ::
          ALTERNATIVE_PORTS.drop (k + 1) := by
      simp only [ALTERNATIVE_PORTS, List.length] at hk
      interval_cases k <;> rfl
    have hfound := tryConnectToPort_found connectEnv true
      (ALTERNATIVE_PORTS.take k) (ALTERNATIVE_PORTS.getD k 0)
      (ALTERNATIVE_PORTS.drop (k + 1))
      { s with isConnecting := true, socketLive := false } hdead hlive
    rw [← hsplit] at hfound
    simp [connectToUnity, hfound]
  · intro env2 b s2 hall hs2
    have hfail := tryConnectToPort_allFail env2 b ALTERNATIVE_PORTS
      { s2 with isConnecting := true, socketLive := false } hall
    simp [connectToUnity, hs2, hfail]

/-- Witness for C4: with only the fourth candidate (55503) live, the explicit
attempt resolves with 55503 after trying 55500-55502 in order; with no
candidate live, an explicit attempt resolves with `null` and shows the
error. -/
theorem connectToUnity_port_order_witness :
    ((connectToUnity (fun p => p == 55503) true ⟨55500, false, false⟩).resolved = some 55503 ∧
     (connectToUnity (fun p => p == 55503) true ⟨55500, false, false⟩).attempted =
        [55500, 55501, 55502] ++ [55503] ∧
     (connectToUnity (fun p => p == 55503) true ⟨55500, false, false⟩).state.currentPort = 55503 ∧
     (connectToUnity (fun p => p == 55503) true ⟨55500, false, false⟩).state.isConnecting = false ∧
     (connectToUnity (fun p => p == 55503) true ⟨55500, false, false⟩).errorShown = false) ∧
    ((connectToUnity (fun _ => false) true ⟨55500, false, false⟩).resolved = none ∧
     (connectToUnity (fun _ => false) true ⟨55500, false, false⟩).errorShown = true) := by
  have h := connectToUnity_port_order (fun p => p == 55503) 3 ⟨55500, false, false⟩
    (by decide) (by decide) (by decide)
  exact ⟨h.1, h.2 (fun _ => false) true ⟨55500, false, false⟩ (by decide) rfl⟩

/-- Counterexample to claim C6: after `closeConnection` on a state whose
remembered port is 55503, the remembered current port is still 55503 — it is
not reset to the default (55500) or to any no-port value; `closeConnection`
never assigns `currentPort`. -/
theorem closeConnection_counterexample :
    (closeConnection ⟨55503, true, true⟩).1.currentPort = 55503 ∧
    ¬ ((closeConnection ⟨55503, true, true⟩).1.currentPort
        = DEFAULT_UNITY_HOT_RELOAD_PORT) := by decide

/-- Claim C6 as amended: after `closeConnection` the in-flight-attempt flag
is false and no live socket exists (destroy — the abortive close — was
invoked exactly when a live socket existed), but the remembered current port
keeps its previous value rather than being cleared. -/
theorem closeConnection_state (s : ClientState) :
    (closeConnection s).1.isConnecting = false ∧
    (closeConnection s).1.socketLive = false ∧
    (closeConnection s).2 = s.socketLive ∧
    (closeConnection s).1.currentPort = s.currentPort :=
  ⟨rfl, rfl, rfl, rfl⟩

/-- Claim C9: the close handler schedules the reconnect after the fixed
5000 ms delay, and the scheduled callback consults the caller-supplied
"is connection still needed" predicate at fire time: the installed callback
is the same function whatever the predicate's value was at scheduling time,
and whenever the predicate is false at fire time the timer starts no
reconnect attempt and leaves the fire-time state untouched. -/
theorem reconnect_checks_predicate_at_fire (scheduleNeeded : Bool)
    (s : ClientState) (fireNeeded : Bool) (connectEnv : Nat → Bool)
    (fireState : ClientState) (h : fireNeeded = false) :
    (onSocketClose scheduleNeeded s).2.1 = 5000 ∧
    (∀ other : Bool, (onSocketClose scheduleNeeded s).2.2
        = (onSocketClose other s).2.2) ∧
    (onSocketClose scheduleNeeded s).2.2 fireNeeded connectEnv fireState
        = (none, false) ∧
    (onSocketClose scheduleNeeded s).1.isConnecting = false := by
  subst h
  exact ⟨rfl, fun _ => rfl, rfl, rfl⟩

/-- Witness for C9: a timer scheduled while the predicate was true, firing
when the predicate has become false, starts no reconnect. -/
theorem reconnect_checks_predicate_at_fire_witness :
    (onSocketClose true ⟨55500, false, false⟩).2.1 = 5000 ∧
    (onSocketClose true ⟨55500, false, false⟩).2.2 false (fun _ => true)
        ⟨55500, false, false⟩ = (none, false) :=
  ⟨(reconnect_checks_predicate_at_fire true ⟨55500, false, false⟩ false
      (fun _ => true) ⟨55500, false, false⟩ rfl).1,
   (reconnect_checks_predicate_at_fire true ⟨55500, false, false⟩ false
      (fun _ => true) ⟨55500, false, false⟩ rfl).2.2.1⟩

/-- `attemptBind` never makes more attempts than its budget. -/
theorem attemptBind_used_le (bindEnv : Int → Nat → Bool) (p : Int) :
    ∀ (m u : Nat), (attemptBind bindEnv p m u).2 ≤ u + m := by
  intro m
  induction m with
  | zero => intro u; simp [attemptBind]
  | succ n ih =>
    intro u
    rw [attemptBind]
    cases h : bindEnv p u
    · simpa [h, Nat.add_comm, Nat.add_left_comm] using ih (u + 1)
    · simp only [h, if_true]
      omega

/-- When every attempt fails, `attemptBind` uses exactly its budget. -/
theorem attemptBind_exhausts (bindEnv : Int → Nat → Bool) (p : Int) :
    ∀ (m u : Nat), (attemptBind bindEnv p m u).1 = false →
      (attemptBind bindEnv p m u).2 = u + m := by
  intro m
  induction m with
  | zero => intro u _; simp [attemptBind]
  | succ n ih =>
    intro u hf
    rw [attemptBind] at hf ⊢
    cases h : bindEnv p u
    · simp only [h, Bool.false_eq_true, if_false] at hf ⊢
      rw [ih (u + 1) hf]
      omega
    · rw [h] at hf
      simp at hf

/-- Attempt accounting of the candidate loop, over any candidate list: each
logged candidate was attempted at most its per-candidate budget — 5 for a
preferred port (equal to the current or last-successful port), 1 for any
other — and a candidate that did not end the search (is not the bound port)
used its budget exactly. -/
theorem bindSearch_attempts_aux (bindEnv : Int → Nat → Bool)
    (currentPort lastSuccessfulPort : Int) :
    ∀ (l : List Int) (p : Int) (n : Nat),
      (p, n) ∈ (bindSearch bindEnv currentPort lastSuccessfulPort l).2 →
      n ≤ (if p = currentPort ∨ p = lastSuccessfulPort then PORT_RETRY_ATTEMPTS else 1) ∧
      ((bindSearch bindEnv currentPort lastSuccessfulPort l).1 = some p ∨
        n = (if p = currentPort ∨ p = lastSuccessfulPort then PORT_RETRY_ATTEMPTS else 1)) := by
  intro l
  induction l with
  | nil => intro p n h; simp [bindSearch] at h
  | cons q rest ih =>
    intro p n h
    rw [bindSearch] at h ⊢
    cases hq : (attemptBind bindEnv q
        (if q = currentPort ∨ q = lastSuccessfulPort then PORT_RETRY_ATTEMPTS else 1) 0).1
    · simp only [hq, Bool.false_eq_true, if_false] at h ⊢
      rcases List.mem_cons.mp h with hhead | htail
      · have hpq : p = q ∧ n = (attemptBind bindEnv q
            (if q = currentPort ∨ q = lastSuccessfulPort then PORT_RETRY_ATTEMPTS else 1) 0).2 := by
          have := Prod.mk.injEq .. ▸ hhead
          exact ⟨congrArg Prod.fst hhead, congrArg Prod.snd hhead⟩
        rcases hpq with ⟨rfl, rfl⟩
        have hex := attemptBind_exhausts bindEnv p _ 0 hq
        rw [hex]
        simp
      · exact ih p n htail
    · simp only [hq, if_true] at h ⊢
      rcases List.mem_singleton.mp h with hhead
      have hp : p = q := congrArg Prod.fst hhead
      have hn : n = (attemptBind bindEnv q
          (if q = currentPort ∨ q = lastSuccessfulPort then PORT_RETRY_ATTEMPTS else 1) 0).2 :=
        congrArg Prod.snd hhead
      subst hp
      constructor
      · rw [hn]
        simpa using attemptBind_used_le bindEnv p _ 0
      · exact Or.inl rfl

/-- Counterexample to claim C5: with the current and last-successful port
both 55500 and nothing bindable, the listener's search log shows that the
non-preferred candidates 55501-55504 each received exactly one bind attempt
before the search moved on — not "more than one attempt" for every
candidate; only the preferred port 55500 was retried 5 times. -/
theorem bindSearch_single_attempt_counterexample :
    (bindSearch (fun _ _ => false) 55500 55500 (portsToTry 55500 55500)).2 =
      [(55500, 5), (55501, 1), (55502, 1), (55503, 1), (55504, 1)] ∧
    ((55501, 1) ∈ (bindSearch (fun _ _ => false) 55500 55500
        (portsToTry 55500 55500)).2) := by decide

/-- Claim C5 as amended: during the listener's startup port search, only a
preferred candidate (one equal to the current port or to the last-successful
port) is retried, up to `PORT_RETRY_ATTEMPTS = 5` times with a delay between
attempts; every other candidate receives exactly one bind attempt before the
search moves to the next candidate. -/
theorem bindSearch_retry_budget (bindEnv : Int → Nat → Bool)
    (currentPort lastSuccessfulPort p : Int) (n : Nat)
    (h : (p, n) ∈ (bindSearch bindEnv currentPort lastSuccessfulPort
          (portsToTry currentPort lastSuccessfulPort)).2) :
    n ≤ (if p = currentPort ∨ p = lastSuccessfulPort then PORT_RETRY_ATTEMPTS else 1) ∧
    ((bindSearch bindEnv currentPort lastSuccessfulPort
        (portsToTry currentPort lastSuccessfulPort)).1 = some p ∨
      n = (if p = currentPort ∨ p = lastSuccessfulPort then PORT_RETRY_ATTEMPTS else 1)) :=
  bindSearch_attempts_aux bindEnv currentPort lastSuccessfulPort _ p n h

/-- Witness for the amended C5: candidate 55501, not preferred when both
remembered ports are 55500, is logged with exactly one attempt. -/
theorem bindSearch_retry_budget_witness :
    (((55501 : Int), (1 : Nat)) ∈ (bindSearch (fun _ _ => false) 55500 55500
        (portsToTry 55500 55500)).2) ∧
    ((1 : Nat) ≤ (if (55501 : Int) = 55500 ∨ (55501 : Int) = 55500
        then PORT_RETRY_ATTEMPTS else 1) ∧
     ((bindSearch (fun _ _ => false) 55500 55500 (portsToTry 55500 55500)).1
          = some 55501 ∨
       (1 : Nat) = (if (55501 : Int) = 55500 ∨ (55501 : Int) = 55500
          then PORT_RETRY_ATTEMPTS else 1))) :=
  ⟨by decide, bindSearch_retry_budget (fun _ _ => false) 55500 55500 55501 1 (by decide)⟩

/-- Claim C7: when the listener is not already initialized-and-running and
the named mutex cannot be newly acquired, Start probes the recorded current
port: if no socket listens there it releases the stale lock and proceeds to
start the listener (with the server running whenever the port search can
bind some candidate); if the port is in use it returns without error and
without starting a second listener — the state is unchanged except for
closing the local mutex handle, and the outcome is the benign
"another instance" result, not a failure. -/
theorem start_reclaims_stale_lock (portInUse : Int → Bool)
    (bindEnv : Int → Nat → Bool) (s : ListenerState)
    (hrun : ¬ (s.isInitialized = true ∧ s.isServerRunning = true)) :
    (portInUse s.currentPort = false →
      (Start false portInUse bindEnv s).2 = .startedReclaimingStaleMutex ∧
      (Start false portInUse bindEnv s).1.isInitialized = true ∧
      (Start false portInUse bindEnv s).1.mutexHeld = false ∧
      ((bindSearch bindEnv s.currentPort s.lastSuccessfulPort
          (portsToTry s.currentPort s.lastSuccessfulPort)).1.isSome = true →
        (Start false portInUse bindEnv s).1.isServerRunning = true)) ∧
    (portInUse s.currentPort = true →
      Start false portInUse bindEnv s
        = ({ s with mutexHeld := false }, .skippedAnotherInstance)) := by
  constructor
  · intro hfree
    rcases hb : (bindSearch bindEnv s.currentPort s.lastSuccessfulPort
        (portsToTry s.currentPort s.lastSuccessfulPort)).1 with _ | p
    · refine ⟨?_, ?_, ?_, ?_⟩ <;>
        simp [Start, hrun, hfree, StartListenerThread, ListenerThreadFunction,
          StopServer, hb]
    · refine ⟨?_, ?_, ?_, ?_⟩ <;>
        simp [Start, hrun, hfree, StartListenerThread, ListenerThreadFunction,
          StopServer, hb]
  · intro hbusy
    simp [Start, hrun, hbusy]

/-- Witness for C7: from the freshly booted state with the mutex
unavailable, a free port lets Start reclaim the lock and run the server
(every bind succeeding); a busy port makes Start return the benign
"another instance" outcome with the state unchanged apart from the closed
mutex handle. -/
theorem start_reclaims_stale_lock_witness :
    ((Start false (fun _ => false) (fun _ _ => true)
        (initListenerState 55500 false)).2 = .startedReclaimingStaleMutex ∧
     (Start false (fun _ => false) (fun _ _ => true)
        (initListenerState 55500 false)).1.isServerRunning = true) ∧
    (Start false (fun _ => true) (fun _ _ => true)
        (initListenerState 55500 false)
      = ({ initListenerState 55500 false with mutexHeld := false },
         .skippedAnotherInstance)) := by
  have h1 := start_reclaims_stale_lock (fun _ => false) (fun _ _ => true)
    (initListenerState 55500 false) (by decide)
  have h2 := start_reclaims_stale_lock (fun _ => true) (fun _ _ => true)
    (initListenerState 55500 false) (by decide)
  exact ⟨⟨(h1.1 rfl).1, (h1.1 rfl).2.2.2 (by decide)⟩, h2.2 rfl⟩

/-- Claim C8: Stop is idempotent — a second Stop on any state is the
benign not-initialized no-op and leaves the state of a single Stop — and
Start is idempotent on an already-initialized-and-running listener — it
returns immediately with the benign "already running" outcome and an
unchanged state, so a second Start changes nothing. -/
theorem stop_start_idempotent (mutexAcquired : Bool) (portInUse : Int → Bool)
    (bindEnv : Int → Nat → Bool) (s : ListenerState) :
    ((Stop (Stop s).1).1 = (Stop s).1 ∧ (Stop (Stop s).1).2 = true) ∧
    (s.isInitialized = true → s.isServerRunning = true →
      Start mutexAcquired portInUse bindEnv s = (s, .alreadyRunning) ∧
      (Start mutexAcquired portInUse bindEnv
          (Start mutexAcquired portInUse bindEnv s).1).1
        = (Start mutexAcquired portInUse bindEnv s).1) := by
  constructor
  · cases h : s.isInitialized
    · constructor <;> simp [Stop, h]
    · constructor <;> simp [Stop, StopServer, h]
  · intro h1 h2
    constructor
    · simp [Start, h1, h2]
    · simp [Start, h1, h2]

/-- Witness for C8: on an initialized-and-running state, two Stops equal
one Stop and two Starts equal one Start, each via the benign branch. -/
theorem stop_start_idempotent_witness :
    (((Stop (Stop { initListenerState 55500 false with
          isInitialized := true, isServerRunning := true }).1).1
        = (Stop { initListenerState 55500 false with
          isInitialized := true, isServerRunning := true }).1) ∧
      (Stop (Stop { initListenerState 55500 false with
          isInitialized := true, isServerRunning := true }).1).2 = true) ∧
    (Start true (fun _ => false) (fun _ _ => true)
        { initListenerState 55500 false with
          isInitialized := true, isServerRunning := true }
      = ({ initListenerState 55500 false with
          isInitialized := true, isServerRunning := true }, .alreadyRunning) ∧
     (Start true (fun _ => false) (fun _ _ => true)
        (Start true (fun _ => false) (fun _ _ => true)
          { initListenerState 55500 false with
            isInitialized := true, isServerRunning := true }).1).1
       = (Start true (fun _ => false) (fun _ _ => true)
          { initListenerState 55500 false with
            isInitialized := true, isServerRunning := true }).1) := by
  have h := stop_start_idempotent true (fun _ => false) (fun _ _ => true)
    { initListenerState 55500 false with
      isInitialized := true, isServerRunning := true }
  exact ⟨h.1, h.2 rfl rfl⟩

/-- Membership after the duplicate-avoiding foldl append used to build the
candidate list: an element of the result came from the accumulator or from
the folded list. -/
theorem mem_foldl_addUnique :
    ∀ (alts acc : List Int) (x : Int),
      x ∈ alts.foldl (fun acc p => if p ∈ acc then acc else acc ++ [p]) acc →
      x ∈ acc ∨ x ∈ alts := by
  intro alts
  induction alts with
  | nil => intro acc x h; exact Or.inl h
  | cons a alts' ih =>
    intro acc x h
    rw [List.foldl_cons] at h
    rcases ih _ x h with hacc | halts
    · by_cases ha : a ∈ acc
      · rw [if_pos ha] at hacc
        exact Or.inl hacc
      · rw [if_neg ha] at hacc
        rcases List.mem_append.mp hacc with h1 | h2
        · exact Or.inl h1
        · rw [List.mem_singleton.mp h2]
          exact Or.inr (List.mem_cons_self a alts')
    · exact Or.inr (List.mem_cons_of_mem a halts)

/-- Every member of the listener's candidate list is positive, and is the
current port, the last successful port, or an alternative-list member. -/
theorem mem_portsToTry (c l p : Int) (h : p ∈ portsToTry c l) :
    0 < p ∧ (p = c ∨ p = l ∨ p ∈ LISTENER_ALTERNATIVE_PORTS) := by
  unfold portsToTry at h
  rcases mem_foldl_addUnique _ _ _ h with h2 | halt
  · by_cases hl : 0 < l ∧ l ∉ (if 0 < c then [c] else [])
    · rw [if_pos hl] at h2
      rcases List.mem_append.mp h2 with h1 | h1
      · by_cases hc : 0 < c
        · rw [if_pos hc] at h1
          rw [List.mem_singleton.mp h1]
          exact ⟨hc, Or.inl rfl⟩
        · rw [if_neg hc] at h1
          exact absurd h1 (List.not_mem_nil p)
      · rw [List.mem_singleton.mp h1]
        exact ⟨hl.1, Or.inr (Or.inl rfl)⟩
    · rw [if_neg hl] at h2
      by_cases hc : 0 < c
      · rw [if_pos hc] at h2
        rw [List.mem_singleton.mp h2]
        exact ⟨hc, Or.inl rfl⟩
      · rw [if_neg hc] at h2
        exact absurd h2 (List.not_mem_nil p)
  · refine ⟨?_, Or.inr (Or.inr halt)⟩
    fin_cases halt <;> decide

/-- A successful candidate search binds a member of the searched list. -/
theorem bindSearch_some_mem (bindEnv : Int → Nat → Bool) (c l : Int) :
    ∀ (ports : List Int) (p : Int),
      (bindSearch bindEnv c l ports).1 = some p → p ∈ ports := by
  intro ports
  induction ports with
  | nil => intro p h; simp [bindSearch] at h
  | cons q rest ih =>
    intro p h
    rw [bindSearch] at h
    cases hq : (attemptBind bindEnv q
        (if q = c ∨ q = l then PORT_RETRY_ATTEMPTS else 1) 0).1
    · simp only [hq, Bool.false_eq_true, if_false] at h
      exact List.mem_cons_of_mem q (ih p h)
    · simp only [hq, if_true, Option.some.injEq] at h
      rw [← h]
      exact List.mem_cons_self q rest

/-- The invariant survives the listener thread's bind search. -/
theorem inv_ListenerThreadFunction (bindEnv : Int → Nat → Bool)
    (s : ListenerState) (h : ListenerInv s) :
    ListenerInv (ListenerThreadFunction bindEnv s) := by
  rcases h with ⟨h1, h2, _⟩
  unfold ListenerThreadFunction
  rcases hb : (bindSearch bindEnv s.currentPort s.lastSuccessfulPort
      (portsToTry s.currentPort s.lastSuccessfulPort)).1 with _ | p
  · exact ⟨h1, h2, by simp⟩
  · have hmem := bindSearch_some_mem bindEnv s.currentPort s.lastSuccessfulPort _ p hb
    have hp := mem_portsToTry _ _ _ hmem
    refine ⟨rfl, ?_, fun _ => le_of_lt hp.1⟩
    rcases hp.2 with rfl | hpl | hin
    · exact h2
    · rw [hpl, ← h1]
      exact h2
    · exact Or.inl hin

/-- The invariant survives StopServer; only the port fields are needed. -/
theorem inv_StopServer (s : ListenerState)
    (h1 : s.currentPort = s.lastSuccessfulPort)
    (h2 : s.currentPort ∈ LISTENER_ALTERNATIVE_PORTS ∨ s.currentPort = s.lastPortPref) :
    ListenerInv (StopServer s) :=
  ⟨h1, h2, by simp [StopServer]⟩

/-- The invariant survives StartListenerThread. -/
theorem inv_StartListenerThread (bindEnv : Int → Nat → Bool) (s : ListenerState)
    (h1 : s.currentPort = s.lastSuccessfulPort)
    (h2 : s.currentPort ∈ LISTENER_ALTERNATIVE_PORTS ∨ s.currentPort = s.lastPortPref) :
    ListenerInv (StartListenerThread bindEnv s) :=
  inv_ListenerThreadFunction bindEnv (StopServer s) (inv_StopServer s h1 h2)

/-- The invariant survives Start. -/
theorem inv_Start (a : Bool) (pu : Int → Bool) (be : Int → Nat → Bool)
    (s : ListenerState) (h : ListenerInv s) : ListenerInv (Start a pu be s).1 := by
  by_cases hg : s.isInitialized = true ∧ s.isServerRunning = true
  · rw [Start, if_pos hg]
    exact h
  · rw [Start, if_neg hg]
    by_cases ha : a = false
    · rw [if_pos ha]
      by_cases hp : pu s.currentPort = false
      · rw [if_pos hp]
        have t := inv_StartListenerThread be { s with mutexHeld := false } h.1 h.2.1
        exact ⟨t.1, t.2.1, t.2.2⟩
      · rw [if_neg hp]
        exact ⟨h.1, h.2.1, h.2.2⟩
    · rw [if_neg ha]
      have t := inv_StartListenerThread be { s with mutexHeld := true } h.1 h.2.1
      exact ⟨t.1, t.2.1, t.2.2⟩

/-- The invariant survives StartWithoutMutex. -/
theorem inv_StartWithoutMutex (be : Int → Nat → Bool) (s : ListenerState)
    (h : ListenerInv s) : ListenerInv (StartWithoutMutex be s) := by
  by_cases hg : s.isInitialized = true ∧ s.isServerRunning = true
  · rw [StartWithoutMutex, if_pos hg]
    exact h
  · rw [StartWithoutMutex, if_neg hg]
    have t := inv_StartListenerThread be s h.1 h.2.1
    exact ⟨t.1, t.2.1, t.2.2⟩

/-- The invariant survives the post-domain-reload auto restart. -/
theorem inv_autoRestart (be : Int → Nat → Bool) (s : ListenerState)
    (h : ListenerInv s) : ListenerInv (autoRestartAfterReload be s) := by
  by_cases hg : s.isInitialized = false ∧ s.wasRunningPref = true
  · rw [autoRestartAfterReload, if_pos hg]
    exact inv_StartWithoutMutex be _ ⟨h.1, h.2.1, h.2.2⟩
  · rw [autoRestartAfterReload, if_neg hg]
    exact h

/-- The invariant survives Stop. -/
theorem inv_Stop (s : ListenerState) (h : ListenerInv s) :
    ListenerInv (Stop s).1 := by
  by_cases hg : s.isInitialized = false
  · rw [Stop, if_pos hg]
    exact h
  · rw [Stop, if_neg hg]
    exact ⟨h.1, h.2.1, by simp [StopServer]⟩

/-- The invariant survives the reload retry loop whenever the reused port is
the remembered last-successful port and is an alternative-list member or the
persisted preference. -/
theorem inv_reloadRetry (sbe : Nat → Bool) (be : Int → Nat → Bool) (p : Int) :
    ∀ (n : Nat) (s : ListenerState),
      s.lastSuccessfulPort = p →
      (p ∈ LISTENER_ALTERNATIVE_PORTS ∨ p = s.lastPortPref) →
      ListenerInv (reloadRetry sbe be p n s) := by
  intro n
  induction n with
  | zero =>
    intro s hlast hpref
    exact inv_StartListenerThread be { s with currentPort := p } hlast.symm hpref
  | succ m ih =>
    intro s hlast hpref
    rw [reloadRetry]
    by_cases hc : 0 ≤ p ∧ sbe (PORT_RETRY_ATTEMPTS - (m + 1)) = true
    · rw [TryStartOnSpecificPort, if_pos hc]
      simp only [if_true]
      exact ⟨rfl, hpref, fun _ => hc.1⟩
    · rw [TryStartOnSpecificPort, if_neg hc]
      simp only [Bool.false_eq_true, if_false]
      exact ih _ hlast hpref

/-- The invariant survives Reload. -/
theorem inv_Reload (a : Bool) (pu : Int → Bool) (sbe : Nat → Bool)
    (be : Int → Nat → Bool) (s : ListenerState) (h : ListenerInv s) :
    ListenerInv (Reload a pu sbe be s) := by
  by_cases hg : s.isInitialized = false
  · rw [Reload, if_pos hg]
    exact inv_Start a pu be s h
  · rw [Reload, if_neg hg]
    exact inv_reloadRetry sbe be s.currentPort PORT_RETRY_ATTEMPTS (StopServer s)
      h.1.symm h.2.1

/-- The invariant survives the pre-assembly-reload teardown. -/
theorem inv_OnBeforeAssemblyReload (s : ListenerState) (h : ListenerInv s) :
    ListenerInv (OnBeforeAssemblyReload s) := by
  unfold OnBeforeAssemblyReload
  by_cases hg : s.isInitialized = true ∧ s.isServerRunning = true
  · rw [if_pos hg]
    exact inv_StopServer _ h.1 h.2.1
  · rw [if_neg hg]
    exact inv_StopServer _ h.1 h.2.1

/-- The invariant survives the editor-quit handler. -/
theorem inv_OnEditorQuitting (s : ListenerState) (h : ListenerInv s) :
    ListenerInv (OnEditorQuitting s) :=
  inv_Stop _ ⟨h.1, h.2.1, h.2.2⟩

/-- The invariant survives one editor tick. -/
theorem inv_OnEditorUpdate (s : ListenerState) (h : ListenerInv s) :
    ListenerInv (OnEditorUpdate s).1 := by
  rcases h with ⟨h1, h2, h3⟩
  have hpref : s.currentPort ∈ LISTENER_ALTERNATIVE_PORTS ∨
      s.currentPort = (if s.pendingPersist then s.lastSuccessfulPort else s.lastPortPref) := by
    cases hp : s.pendingPersist
    · simpa using h2
    · simp only [if_true]
      exact Or.inr h1
  unfold OnEditorUpdate
  by_cases hf : drainQueue s.messageQueue s.shouldRequestRefresh = true
  · rw [if_pos hf]
    exact ⟨h1, hpref, h3⟩
  · rw [if_neg hf]
    exact ⟨h1, hpref, h3⟩

/-- The invariant survives enqueuing a received payload. -/
theorem inv_enqueueMessage (m : List Char) (s : ListenerState)
    (h : ListenerInv s) : ListenerInv (enqueueMessage m s) :=
  ⟨h.1, h.2.1, h.2.2⟩

/-- The invariant survives a domain-reload boot. -/
theorem inv_domainReloadBoot (s : ListenerState) :
    ListenerInv (domainReloadBoot s) :=
  ⟨rfl, Or.inr rfl, by simp [domainReloadBoot, initListenerState]⟩

/-- Every listener step preserves the invariant. -/
theorem listenerStep_inv {s s' : ListenerState} (hs : ListenerStep s s')
    (h : ListenerInv s) : ListenerInv s' := by
  cases hs with
  | start a pu be _ => exact inv_Start a pu be _ h
  | startNoMutex be _ => exact inv_StartWithoutMutex be _ h
  | autoRestart be _ => exact inv_autoRestart be _ h
  | stop _ => exact inv_Stop _ h
  | reload a pu sbe be _ => exact inv_Reload a pu sbe be _ h
  | beforeAssemblyReload _ => exact inv_OnBeforeAssemblyReload _ h
  | editorQuitting _ => exact inv_OnEditorQuitting _ h
  | tick _ => exact inv_OnEditorUpdate _ h
  | recv m _ => exact inv_enqueueMessage m _ h
  | boot _ => exact inv_domainReloadBoot _

/-- Every reachable listener state satisfies the invariant. -/
theorem listenerReach_inv (p0 : Int) (w0 : Bool) (s : ListenerState)
    (h : ListenerReach p0 w0 s) : ListenerInv s := by
  induction h with
  | init => exact ⟨rfl, Or.inr rfl, by simp [initListenerState]⟩
  | step _ hstep ih => exact listenerStep_inv hstep ih

/-- Claim C10: in every reachable listener state, GetCurrentPort returns -1
exactly when IsServerRunning is false, and when the server runs it returns
the current bound port, which equals the last-successful port and is an
alternative-list member or the persisted last-port preference — callers
never observe a port number from a stopped listener. -/
theorem getCurrentPort_reflects_running (p0 : Int) (w0 : Bool)
    (s : ListenerState) (h : ListenerReach p0 w0 s) :
    (GetCurrentPort s = -1 ↔ IsServerRunning s = false) ∧
    (IsServerRunning s = true →
      GetCurrentPort s = s.currentPort ∧
      s.currentPort = s.lastSuccessfulPort ∧
      (GetCurrentPort s ∈ LISTENER_ALTERNATIVE_PORTS ∨
        GetCurrentPort s = s.lastPortPref)) := by
  have inv := listenerReach_inv p0 w0 s h
  cases hx : s.isServerRunning
  · constructor
    · simp [GetCurrentPort, IsServerRunning, hx]
    · intro hr
      rw [IsServerRunning, hx] at hr
      exact absurd hr (by decide)
  · have hpos : 0 ≤ s.currentPort := inv.2.2 hx
    constructor
    · constructor
      · intro hg
        rw [GetCurrentPort, hx, if_pos rfl] at hg
        omega
      · intro hr
        rw [IsServerRunning, hx] at hr
        exact absurd hr (by decide)
    · intro _
      have hg : GetCurrentPort s = s.currentPort := by
        rw [GetCurrentPort, hx, if_pos rfl]
      rw [hg]
      exact ⟨rfl, inv.1, inv.2.1⟩

/-- Witness for C10: the theorem applied to the reachable freshly booted
state. -/
theorem getCurrentPort_reflects_running_witness :
    ((GetCurrentPort (initListenerState 55500 false) = -1 ↔
        IsServerRunning (initListenerState 55500 false) = false) ∧
     (IsServerRunning (initListenerState 55500 false) = true →
       GetCurrentPort (initListenerState 55500 false)
           = (initListenerState 55500 false).currentPort ∧
       (initListenerState 55500 false).currentPort
           = (initListenerState 55500 false).lastSuccessfulPort ∧
       (GetCurrentPort (initListenerState 55500 false) ∈ LISTENER_ALTERNATIVE_PORTS ∨
         GetCurrentPort (initListenerState 55500 false)
           = (initListenerState 55500 false).lastPortPref))) :=
  getCurrentPort_reflects_running 55500 false (initListenerState 55500 false)
    ListenerReach.init
